import Mathlib

/-!
Verification of the snapshot-based disk resource manager of
`image_creator/disk.py` (snf-image-creator).

The Python code is embedded shallowly: every call to an external command
(`losetup`, `dd`, `blockdev`, `dmsetup`), to `os`/`tempfile`, and to the
guestfs appliance is recorded as an `Action` in an execution trace, and the
mutable state of a `Disk` object (its cleanup-job ledger and tracked-device
list) is threaded explicitly.  Outcomes of the external world (loop-device
names handed out by `losetup -f`, sizes reported by `blockdev --getsize`,
temp-file names from `tempfile.mkstemp`, the uuid, whether `dmsetup create`
succeeds, and the roots found by guestfs OS inspection) are supplied by an
environment `Env`, so every definition is executable on concrete inputs.
-/

namespace ImageCreator

/-- File-type classification of `os.stat(self.source).st_mode` as tested in
`Disk.get_device`: `S_ISDIR`, `S_ISREG`, `S_ISBLK`, or none of these. -/
inductive SrcMode where
  | dir
  | reg
  | blk
  | other
deriving DecidableEq

/-- A cleanup-ledger entry, i.e. one `(job, args)` pair appended by
`Disk._add_cleanup`.  The three shapes that occur in `disk.py` are
`losetup('-d', loop)`, `os.unlink(path)` and `dmsetup('remove', name)`. -/
inductive Job where
  | losetupD (loop : String)
  | unlinkJob (path : String)
  | dmRemove (name : String)
deriving DecidableEq

/-- Exceptions of the embedded code: `ValueError` for an invalid source,
`NotImplementedError` from the `_dir_to_disk` stub, a failing external
command, `DiskError` from guest inspection, and failures raised while a
cleanup job or a device destroy is executed. -/
inductive Err where
  | valueError (msg : String)
  | notImplementedError
  | commandFailed (cmd : String)
  | diskError (msg : String)
  | destroyFailed (dev : String)
  | jobFailed (j : Job)
deriving DecidableEq

/-- One observable step of the embedded code: an external command, a
filesystem primitive, or a guestfs appliance launch/shutdown.
`ddSparse p k` records `dd if=/dev/null of=p bs=1k seek=k`;
`dmsetupCreate name tablePath content` records `dmsetup create name tablePath`
together with the table line previously written into `tablePath`;
`destroyDevice dev` stands for the guestfs `umount_all; sync; close`
sequence of `DiskDevice.destroy`. -/
inductive Action where
  | statPath (p : String)
  | losetupAttach (fname : String) (loop : String)
  | losetupDetach (loop : String)
  | blockdevGetsize (dev : String)
  | mkstemp (p : String)
  | ddSparse (ofPath : String) (seekKb : Nat)
  | writeFile (p : String) (content : String)
  | dmsetupCreate (name : String) (tablePath : String) (content : String)
  | dmsetupRemove (name : String)
  | unlinkFile (p : String)
  | guestLaunch (dev : String)
  | destroyDevice (dev : String)
deriving DecidableEq

/-- The action an executed ledger entry performs (`job(*args)` in
`Disk.cleanup`). -/
def Job.run : Job → Action
  | .losetupD loop => .losetupDetach loop
  | .unlinkJob path => .unlinkFile path
  | .dmRemove name => .dmsetupRemove name

/-- The file or device an action writes to, if any.  `dd` writes to its
`of=` target, `os.write` to the table temp file, and the guestfs appliance
(opened with `readonly=0`) and `DiskDevice.destroy` may write to the drive
they were given. -/
def Action.writeTarget : Action → Option String
  | .ddSparse p _ => some p
  | .writeFile p _ => some p
  | .guestLaunch dev => some dev
  | .destroyDevice dev => some dev
  | _ => none

/-- The path created by an action, if any: `tempfile.mkstemp` creates its
temp file, `dmsetup create name` creates `/dev/mapper/name`. -/
def Action.created : Action → Option String
  | .mkstemp p => some p
  | .dmsetupCreate n _ _ => some ("/dev/mapper/" ++ n)
  | _ => none

/-- The path/device arguments an action mentions directly (table-line
contents are handled separately, by characterising the content string). -/
def Action.refs : Action → List String
  | .statPath p => [p]
  | .losetupAttach fname loop => [fname, loop]
  | .losetupDetach loop => [loop]
  | .blockdevGetsize dev => [dev]
  | .mkstemp p => [p]
  | .ddSparse p _ => [p]
  | .writeFile p _ => [p]
  | .dmsetupCreate _ p _ => [p]
  | .dmsetupRemove _ => []
  | .unlinkFile p => [p]
  | .guestLaunch dev => [dev]
  | .destroyDevice dev => [dev]

/-- The external world as `disk.py` observes it: the stat classification of
the source, the loop device `losetup -f --show f` hands out for a file `f`,
the sector count printed by `blockdev --getsize dev`, the two
`tempfile.mkstemp` names (cow file, then table file), `uuid.uuid4().hex`,
whether `dmsetup create` succeeds, and the guestfs inspection results on a
device. -/
structure Env where
  mode : SrcMode
  loopOf : String → String
  getsize : String → Nat
  cowName : String
  tableName : String
  uuidHex : String
  dmCreateOk : Bool
  roots : String → List String
  inspectType : String → String
  inspectDistro : String → String

/-- The state of a `Disk` object: its immutable `source`, the
`_cleanup_jobs` ledger (append at the end, pop from the end) and the
`_devices` list of tracked `DiskDevice`s (append at the end, pop from the
end). -/
structure DiskDevice where
  device : String
  bootable : Bool
  root : String
  ostype : String
  distro : String
deriving DecidableEq

structure Disk where
  source : String
  cleanup_jobs : List Job := []
  devices : List DiskDevice := []
deriving DecidableEq

/-- Embedding of `DiskDevice.__init__`: launch the guestfs appliance on `device`,
inspect for operating systems, raise `DiskError` on zero or on more than
one root, otherwise record the single root and its type/distro. -/
def DiskDevice.init (env : Env) (device : String) :
    Except Err DiskDevice × List Action :=
  (match env.roots device with
   | [] => .error (.diskError ("No operating system found"))
   | [r] => .ok { device := device, bootable := true, root := r,
                  ostype := env.inspectType r, distro := env.inspectDistro r }
   | _ :: _ :: _ => .error (.diskError ("Multiple operating systems found")),
   [Action.guestLaunch device])

/-- Embedding of `Disk._add_cleanup(job, *args)`: append one entry to the ledger. -/
def Disk.add_cleanup (d : Disk) (j : Job) : Disk :=
  { d with cleanup_jobs := d.cleanup_jobs ++ [j] }

/-- Embedding of `Disk._losetup(fname)`: attach `fname` to the next free loop device,
register `losetup -d loop` in the ledger, return the loop device. -/
def Disk.losetup (env : Env) (d : Disk) (fname : String) :
    String × Disk × List Action :=
  let loop := env.loopOf fname
  (loop, d.add_cleanup (.losetupD loop), [.losetupAttach fname loop])

/-- The method `Disk._dir_to_disk` in this version of the code is a stub that raises
`NotImplementedError`. -/
def Disk.dir_to_disk : Except Err String :=
  .error .notImplementedError

/-- The snapshot-construction tail of `Disk.get_device` (lines 78-98 of
`disk.py`), starting from the resolved `sourcedev`:
query the size with `blockdev --getsize`, `mkstemp` the cow file and
register its unlink, create the 1G sparse cow file with
`dd if=/dev/null of=cow bs=1k seek=1024*1024`, loop-attach the cow file
(registering its detach), write the table line
`0 <size> snapshot <sourcedev> <cowdev> n 8` into a `mkstemp` temp file,
run `dmsetup create <uuid> <table>`; on success register
`dmsetup remove <uuid>`, unlink the table file (the `finally` block), build
the `DiskDevice` on `/dev/mapper/<uuid>` and append it to `_devices`; if
`dmsetup create` fails the table file is still unlinked and the error
propagates with the earlier ledger entries untouched. -/
def Disk.snapshot_part (env : Env) (d : Disk) (sourcedev : String) :
    Except Err (Sum String DiskDevice) × Disk × List Action :=
  let size := env.getsize sourcedev
  let cow := env.cowName
  let d1 := d.add_cleanup (.unlinkJob cow)
  let (cowdev, d2, trLoop) := d1.losetup env cow
  let snapshot := env.uuidHex
  let table := env.tableName
  let content := "0 " ++ toString size ++ " snapshot " ++ sourcedev ++ " "
                   ++ cowdev ++ " n 8"
  let trPre := [Action.blockdevGetsize sourcedev, Action.mkstemp cow,
                Action.ddSparse cow (1024 * 1024)] ++ trLoop ++
               [Action.mkstemp table, Action.writeFile table content,
                Action.dmsetupCreate snapshot table content]
  if env.dmCreateOk then
    let d3 := d2.add_cleanup (.dmRemove snapshot)
    let (res, trInit) := DiskDevice.init env ("/dev/mapper/" ++ snapshot)
    match res with
    | .error e => (.error e, d3, trPre ++ [Action.unlinkFile table] ++ trInit)
    | .ok dev =>
        (.ok (.inr dev), { d3 with devices := d3.devices ++ [dev] },
         trPre ++ [Action.unlinkFile table] ++ trInit)
  else
    (.error (.commandFailed ("dmsetup create")), d2,
     trPre ++ [Action.unlinkFile table])

/-- Embedding of `Disk.get_device`, with the outcome of the `_dir_to_disk` call
abstracted as the `bundler` argument (the source's `_dir_to_disk` always
raises `NotImplementedError`, see `Disk.get_device`): stat the source; on a
directory, loop-attach the bundler's output and return the loop path
directly; on a regular file, loop-attach the source first; on a block
device, use the source directly; otherwise raise `ValueError`; in the two
supported cases continue with `snapshot_part`.  The directory branch
returns the loop-device path itself (`Sum.inl`), the snapshot branches
return a `DiskDevice` (`Sum.inr`), exactly as the Python returns either a
string or a `DiskDevice`. -/
def Disk.get_device_with (env : Env) (bundler : Except Err String)
    (d : Disk) : Except Err (Sum String DiskDevice) × Disk × List Action :=
  let tr0 := [Action.statPath d.source]
  match env.mode with
  | .dir =>
    match bundler with
    | .error e => (.error e, d, tr0)
    | .ok f =>
      let (loop, d1, tr1) := d.losetup env f
      (.ok (.inl loop), d1, tr0 ++ tr1)
  | .reg =>
    let (sourcedev, d1, tr1) := d.losetup env d.source
    let (res, d2, tr2) := Disk.snapshot_part env d1 sourcedev
    (res, d2, tr0 ++ tr1 ++ tr2)
  | .blk =>
    let (res, d2, tr2) := Disk.snapshot_part env d d.source
    (res, d2, tr0 ++ tr2)
  | .other =>
    (.error (.valueError ("Value for self.source is invalid")), d, tr0)

/-- Embedding of `Disk.get_device` as written in the source: the `_dir_to_disk` call is
the `NotImplementedError` stub. -/
def Disk.get_device (env : Env) (d : Disk) :
    Except Err (Sum String DiskDevice) × Disk × List Action :=
  d.get_device_with env Disk.dir_to_disk

/-- The `while len(self._devices): device = self._devices.pop();
device.destroy()` loop of `Disk.cleanup`.  Popping from the end of the
Python list until it is empty visits the elements in reverse order, so the
loop is structural recursion over the reversed list; `df dev` says whether
the guestfs teardown for device path `dev` raises.  Returns the raised
error (if any), the devices not yet popped (in their original order), and
the actions performed. -/
def destroyLoop (df : String → Bool) :
    List DiskDevice → Option Err × List DiskDevice × List Action
  | [] => (none, [], [])
  | device :: rest =>
    if df device.device then
      (some (.destroyFailed device.device), rest.reverse,
       [.destroyDevice device.device])
    else
      let (e, rem, tr) := destroyLoop df rest
      (e, rem, .destroyDevice device.device :: tr)

/-- The `while len(self._cleanup_jobs): job, args = self._cleanup_jobs.pop();
job(*args)` loop of `Disk.cleanup`, same popping discipline; `jf j` says
whether executing job `j` raises. -/
def jobLoop (jf : Job → Bool) :
    List Job → Option Err × List Job × List Action
  | [] => (none, [], [])
  | job :: rest =>
    if jf job then
      (some (.jobFailed job), rest.reverse, [job.run])
    else
      let (e, rem, tr) := jobLoop jf rest
      (e, rem, job.run :: tr)

/-- Embedding of `Disk.cleanup`: destroy tracked devices (most recently created first),
then execute ledger jobs (most recently registered first).  An exception
raised by a destroy or a job propagates immediately (there is no
try/except in the loops), leaving the not-yet-popped entries in place and
skipping the job loop entirely when the device loop raised. -/
def Disk.cleanup (d : Disk) (df : String → Bool) (jf : Job → Bool) :
    Option Err × Disk × List Action :=
  let r1 := destroyLoop df d.devices.reverse
  match r1.1 with
  | some err => (some err, { d with devices := r1.2.1 }, r1.2.2)
  | none =>
    let r2 := jobLoop jf d.cleanup_jobs.reverse
    (r2.1, { d with devices := [], cleanup_jobs := r2.2.1 }, r1.2.2 ++ r2.2.2)

/-- The table line written at lines 89-90 of `disk.py`:
`"0 %d snapshot %s %s n 8" % (int(size), sourcedev, cowdev)` with
`size = blockdev --getsize sourcedev` and `cowdev` the loop device of the
cow file. -/
def tableLine (env : Env) (sd : String) : String :=
  "0 " ++ toString (env.getsize sd) ++ " snapshot " ++ sd ++ " "
    ++ env.loopOf env.cowName ++ " n 8"

/-- The ledger entries `snapshot_part` registers before `dmsetup create`
runs: unlink of the cow file, then detach of the cow loop device. -/
def snapJobs (env : Env) : List Job :=
  [.unlinkJob env.cowName, .losetupD (env.loopOf env.cowName)]

/-- The action trace of `snapshot_part` up to and including the `finally`
unlink of the table file. -/
def snapTrace (env : Env) (sd : String) : List Action :=
  [.blockdevGetsize sd, .mkstemp env.cowName,
   .ddSparse env.cowName (1024 * 1024),
   .losetupAttach env.cowName (env.loopOf env.cowName),
   .mkstemp env.tableName, .writeFile env.tableName (tableLine env sd),
   .dmsetupCreate env.uuidHex env.tableName (tableLine env sd),
   .unlinkFile env.tableName]

/-! ### Lemmas about the two cleanup loops -/

lemma destroyLoop_no_fail (df : String → Bool) (l : List DiskDevice)
    (h : ∀ v ∈ l, df v.device = false) :
    destroyLoop df l =
      (none, [], l.map (fun v => Action.destroyDevice v.device)) := by
  induction l with
  | nil => rfl
  | cons x xs ih =>
    have hx : df x.device = false := h x (by simp)
    have hxs : ∀ v ∈ xs, df v.device = false := fun v hv => h v (by simp [hv])
    simp [destroyLoop, hx, ih hxs]

lemma jobLoop_no_fail (jf : Job → Bool) (l : List Job)
    (h : ∀ j ∈ l, jf j = false) :
    jobLoop jf l = (none, [], l.map Job.run) := by
  induction l with
  | nil => rfl
  | cons x xs ih =>
    have hx : jf x = false := h x (by simp)
    have hxs : ∀ j ∈ xs, jf j = false := fun j hj => h j (by simp [hj])
    simp [jobLoop, hx, ih hxs]

lemma destroyLoop_eq_none (df : String → Bool) (l : List DiskDevice)
    (h : (destroyLoop df l).1 = none) : (destroyLoop df l).2.1 = [] := by
  induction l with
  | nil => rfl
  | cons x xs ih =>
    by_cases hx : df x.device
    · simp [destroyLoop, hx] at h
    · rcases hr : destroyLoop df xs with ⟨e, rem, tr⟩
      simp [destroyLoop, hx, hr] at h ⊢
      have := ih
      rw [hr] at this
      exact this h

lemma jobLoop_eq_none (jf : Job → Bool) (l : List Job)
    (h : (jobLoop jf l).1 = none) : (jobLoop jf l).2.1 = [] := by
  induction l with
  | nil => rfl
  | cons x xs ih =>
    by_cases hx : jf x
    · simp [jobLoop, hx] at h
    · rcases hr : jobLoop jf xs with ⟨e, rem, tr⟩
      simp [jobLoop, hx, hr] at h ⊢
      have := ih
      rw [hr] at this
      exact this h

lemma jobLoop_fail (jf : Job → Bool) (l1 : List Job) (x : Job) (l2 : List Job)
    (h1 : ∀ j ∈ l1, jf j = false) (hx : jf x = true) :
    jobLoop jf (l1 ++ x :: l2) =
      (some (.jobFailed x), l2.reverse, l1.map Job.run ++ [x.run]) := by
  induction l1 with
  | nil => simp [jobLoop, hx]
  | cons y ys ih =>
    have hy : jf y = false := h1 y (by simp)
    have hys : ∀ j ∈ ys, jf j = false := fun j hj => h1 j (by simp [hj])
    simp [jobLoop, hy, ih hys]

lemma destroyLoop_fail (df : String → Bool) (l1 : List DiskDevice)
    (x : DiskDevice) (l2 : List DiskDevice)
    (h1 : ∀ v ∈ l1, df v.device = false) (hx : df x.device = true) :
    destroyLoop df (l1 ++ x :: l2) =
      (some (.destroyFailed x.device), l2.reverse,
       l1.map (fun v => Action.destroyDevice v.device)
         ++ [.destroyDevice x.device]) := by
  induction l1 with
  | nil => simp [destroyLoop, hx]
  | cons y ys ih =>
    have hy : df y.device = false := h1 y (by simp)
    have hys : ∀ v ∈ ys, df v.device = false := fun v hv => h1 v (by simp [hv])
    simp [destroyLoop, hy, ih hys]

/-- Helper: a device-destroy function / job-failure function that never
raises, and a sample populated disk used by several witnesses. -/
def df0 : String → Bool := fun _ => false

def jf0 : Job → Bool := fun _ => false

def sampleDevA : DiskDevice :=
  { device := "/dev/mapper/aa", bootable := true, root := "/dev/sda1",
    ostype := "linux", distro := "fedora" }

def sampleDevB : DiskDevice :=
  { device := "/dev/mapper/bb", bootable := true, root := "/dev/sdb1",
    ostype := "linux", distro := "debian" }

def sampleDisk : Disk :=
  { source := "/store/image.diskdump",
    cleanup_jobs := [.losetupD ("/dev/loop0"), .unlinkJob ("/tmp/cow"),
                     .losetupD ("/dev/loop1"), .dmRemove ("abcd")],
    devices := [sampleDevA, sampleDevB] }

lemma cleanup_no_fail (d : Disk) (df : String → Bool) (jf : Job → Bool)
    (hdf : ∀ v ∈ d.devices, df v.device = false)
    (hjf : ∀ j ∈ d.cleanup_jobs, jf j = false) :
    d.cleanup df jf =
      (none, { d with devices := [], cleanup_jobs := [] },
       d.devices.reverse.map (fun v => Action.destroyDevice v.device)
         ++ d.cleanup_jobs.reverse.map Job.run) := by
  have h1 : ∀ v ∈ d.devices.reverse, df v.device = false := by
    intro v hv
    exact hdf v (List.mem_reverse.mp hv)
  have h2 : ∀ j ∈ d.cleanup_jobs.reverse, jf j = false := by
    intro j hj
    exact hjf j (List.mem_reverse.mp hj)
  simp [Disk.cleanup, destroyLoop_no_fail df _ h1, jobLoop_no_fail jf _ h2]

/-- C2: when no release action raises, `cleanup()` destroys the tracked
devices in reverse creation order, afterwards runs the ledger jobs in
reverse registration order, and leaves both lists empty. -/
theorem c2_cleanup_order (d : Disk) (df : String → Bool) (jf : Job → Bool)
    (hdf : ∀ v ∈ d.devices, df v.device = false)
    (hjf : ∀ j ∈ d.cleanup_jobs, jf j = false) :
    d.cleanup df jf =
      (none, { d with devices := [], cleanup_jobs := [] },
       d.devices.reverse.map (fun v => Action.destroyDevice v.device)
         ++ d.cleanup_jobs.reverse.map Job.run) :=
  cleanup_no_fail d df jf hdf hjf

/-- Witness for C2 on a concrete disk with two tracked devices and four
ledger entries. -/
theorem c2_cleanup_order_witness :
    (∀ v ∈ sampleDisk.devices, df0 v.device = false) ∧
    sampleDisk.cleanup df0 jf0 =
      (none, { sampleDisk with devices := [], cleanup_jobs := [] },
       [.destroyDevice ("/dev/mapper/bb"), .destroyDevice ("/dev/mapper/aa"),
        .dmsetupRemove ("abcd"), .losetupDetach ("/dev/loop1"),
        .unlinkFile ("/tmp/cow"), .losetupDetach ("/dev/loop0")]) :=
  ⟨by decide,
   (c2_cleanup_order sampleDisk df0 jf0 (by decide) (by decide)).trans
     (by decide)⟩

/-- C4: after a `cleanup()` call that completes without raising, the ledger
and the tracked-device list are empty, and a second `cleanup()` (whatever
failure behaviour the environment would exhibit) performs no action, raises
nothing, and leaves the state unchanged. -/
theorem c4_cleanup_idempotent (d : Disk) (df jf df' jf')
    (h : (d.cleanup df jf).1 = none) :
    (d.cleanup df jf).2.1.devices = [] ∧
    (d.cleanup df jf).2.1.cleanup_jobs = [] ∧
    (d.cleanup df jf).2.1.cleanup df' jf' = (none, (d.cleanup df jf).2.1, []) := by
  rcases h1 : destroyLoop df d.devices.reverse with ⟨e1, devs, tr1⟩
  cases e1 with
  | some err => simp [Disk.cleanup, h1] at h
  | none =>
    rcases h2 : jobLoop jf d.cleanup_jobs.reverse with ⟨e2, jobs, tr2⟩
    have hjobs : jobs = [] := by
      have he2 : e2 = none := by
        simp [Disk.cleanup, h1, h2] at h
        exact h
      have := jobLoop_eq_none jf d.cleanup_jobs.reverse
      rw [h2] at this
      exact this (by simp [he2])
    have he2 : e2 = none := by
      simp [Disk.cleanup, h1, h2] at h
      exact h
    subst hjobs he2
    simp [Disk.cleanup, h1, h2, destroyLoop, jobLoop]

/-- Witness for C4 on the sample disk. -/
theorem c4_cleanup_idempotent_witness :
    (sampleDisk.cleanup df0 jf0).1 = none ∧
    ((sampleDisk.cleanup df0 jf0).2.1.devices = [] ∧
     (sampleDisk.cleanup df0 jf0).2.1.cleanup_jobs = [] ∧
     (sampleDisk.cleanup df0 jf0).2.1.cleanup df0 jf0 =
       (none, (sampleDisk.cleanup df0 jf0).2.1, [])) :=
  ⟨by decide, c4_cleanup_idempotent sampleDisk df0 jf0 df0 jf0 (by decide)⟩

/-- A job-failure environment in which exactly the ledger entry
`os.unlink("/tmp/cow")` raises while it is being executed. -/
def jfCowFails : Job → Bool := fun j => decide (j = Job.unlinkJob ("/tmp/cow"))

/-- A disk holding only ledger entries, the unlink entry registered
between two loop-detach entries. -/
def jobsOnlyDisk : Disk :=
  { source := "/store/image.diskdump",
    cleanup_jobs := [.losetupD ("/dev/loop0"), .unlinkJob ("/tmp/cow"),
                     .losetupD ("/dev/loop1")] }

/-- C5 counterexample: when the `os.unlink` ledger entry raises during
`cleanup()`, the exception propagates out of `cleanup()` (the claim says it
must not raise), the earlier-registered `losetup -d /dev/loop0` entry is
never executed (the claim says every remaining entry is executed), and the
ledger is left non-empty. -/
theorem c5_counterexample :
    (jobsOnlyDisk.cleanup df0 jfCowFails).1 ≠ none ∧
    Action.losetupDetach ("/dev/loop0") ∉
      (jobsOnlyDisk.cleanup df0 jfCowFails).2.2 ∧
    (jobsOnlyDisk.cleanup df0 jfCowFails).2.1.cleanup_jobs ≠ [] := by
  decide

/-- C5 amended: an exception raised during the unwind aborts the rest of
it and escapes `cleanup()`.  If the destroy of a tracked device raises,
the devices created after it were already destroyed in reverse creation
order, the failing device and those are removed from the device list, the
earlier-created devices remain tracked, and the job ledger is left
entirely untouched and unexecuted.  If, with all device destroys
succeeding, a ledger release action raises, the entries registered more
recently than the failing one were already executed in LIFO order, the
failing entry has been popped, and the earlier-registered entries remain
in the ledger unexecuted. -/
theorem c5_cleanup_failure_propagates (d : Disk) (df : String → Bool)
    (jf : Job → Bool) :
    (∀ pre (x : DiskDevice) post,
       d.devices = pre ++ x :: post →
       (∀ v ∈ post, df v.device = false) → df x.device = true →
       d.cleanup df jf =
         (some (.destroyFailed x.device), { d with devices := pre },
          post.reverse.map (fun v => Action.destroyDevice v.device)
            ++ [.destroyDevice x.device])) ∧
    (∀ pre (x : Job) post,
       d.cleanup_jobs = pre ++ x :: post →
       (∀ v ∈ d.devices, df v.device = false) →
       (∀ j ∈ post, jf j = false) → jf x = true →
       d.cleanup df jf =
         (some (.jobFailed x), { d with devices := [], cleanup_jobs := pre },
          d.devices.reverse.map (fun v => Action.destroyDevice v.device)
            ++ (post.reverse.map Job.run ++ [x.run]))) := by
  constructor
  · intro pre x post hdevs hpost hx
    have hrev : d.devices.reverse = post.reverse ++ x :: pre.reverse := by
      simp [hdevs]
    have hpostrev : ∀ v ∈ post.reverse, df v.device = false := by
      intro v hv
      exact hpost v (List.mem_reverse.mp hv)
    simp [Disk.cleanup, hrev,
          destroyLoop_fail df post.reverse x pre.reverse hpostrev hx]
  · intro pre x post hjobs hdf hpost hx
    have h1 : ∀ v ∈ d.devices.reverse, df v.device = false := by
      intro v hv
      exact hdf v (List.mem_reverse.mp hv)
    have hrev : d.cleanup_jobs.reverse = post.reverse ++ x :: pre.reverse := by
      simp [hjobs]
    have hpostrev : ∀ j ∈ post.reverse, jf j = false := by
      intro j hj
      exact hpost j (List.mem_reverse.mp hj)
    simp [Disk.cleanup, destroyLoop_no_fail df _ h1, hrev,
          jobLoop_fail jf post.reverse x pre.reverse hpostrev hx]

/-- A device-destroy environment in which exactly the guestfs teardown of
the device `/dev/mapper/bb` raises. -/
def dfBFails : String → Bool := fun s => decide (s = "/dev/mapper/bb")

/-- Witness for the amended C5, exercising both failure modes: a raising
destroy of the most recently created device leaves the earlier device
tracked and the four-entry ledger untouched with no job executed; a raising
unlink entry on the three-entry ledger leaves the earliest entry
registered and unexecuted. -/
theorem c5_cleanup_failure_propagates_witness :
    dfBFails ("/dev/mapper/bb") = true ∧
    sampleDisk.cleanup dfBFails jf0 =
      (some (.destroyFailed ("/dev/mapper/bb")),
       { sampleDisk with devices := [sampleDevA] },
       [.destroyDevice ("/dev/mapper/bb")]) ∧
    jobsOnlyDisk.cleanup df0 jfCowFails =
      (some (.jobFailed (.unlinkJob ("/tmp/cow"))),
       { jobsOnlyDisk with devices := [],
                           cleanup_jobs := [.losetupD ("/dev/loop0")] },
       [.losetupDetach ("/dev/loop1"), .unlinkFile ("/tmp/cow")]) :=
  ⟨by decide,
   ((c5_cleanup_failure_propagates sampleDisk dfBFails jf0).1
      [sampleDevA] sampleDevB [] rfl (by decide) (by decide)).trans
     (by decide),
   ((c5_cleanup_failure_propagates jobsOnlyDisk df0 jfCowFails).2
      [.losetupD ("/dev/loop0")] (.unlinkJob ("/tmp/cow"))
      [.losetupD ("/dev/loop1")] rfl (by decide) (by decide)
      (by decide)).trans (by decide)⟩

/-! ### Shape lemmas for `get_device` -/

/-- The mapped device path `/dev/mapper/<uuid>` used by `get_device`. -/
def dmPath (env : Env) : String := "/dev/mapper/" ++ env.uuidHex

/-- The `DiskDevice` built on the mapped device when inspection finds the
single root `r`. -/
def snapDev (env : Env) (r : String) : DiskDevice :=
  { device := dmPath env, bootable := true, root := r,
    ostype := env.inspectType r, distro := env.inspectDistro r }

lemma snapshot_part_fail (env : Env) (d : Disk) (sd : String)
    (hdm : env.dmCreateOk = false) :
    Disk.snapshot_part env d sd =
      (.error (.commandFailed ("dmsetup create")),
       { d with cleanup_jobs := d.cleanup_jobs ++ snapJobs env },
       snapTrace env sd) := by
  simp [Disk.snapshot_part, Disk.losetup, Disk.add_cleanup, hdm, snapJobs,
        snapTrace, tableLine]

lemma snapshot_part_ok_none (env : Env) (d : Disk) (sd : String)
    (hdm : env.dmCreateOk = true) (hr : env.roots (dmPath env) = []) :
    Disk.snapshot_part env d sd =
      (.error (.diskError ("No operating system found")),
       { d with cleanup_jobs :=
           d.cleanup_jobs ++ snapJobs env ++ [.dmRemove env.uuidHex] },
       snapTrace env sd ++ [.guestLaunch (dmPath env)]) := by
  simp [Disk.snapshot_part, Disk.losetup, Disk.add_cleanup, hdm,
        DiskDevice.init, dmPath] at *
  simp [hr, snapJobs, snapTrace, tableLine, dmPath, List.append_assoc]

lemma snapshot_part_ok_multi (env : Env) (d : Disk) (sd : String)
    (r s : String) (rest : List String)
    (hdm : env.dmCreateOk = true)
    (hr : env.roots (dmPath env) = r :: s :: rest) :
    Disk.snapshot_part env d sd =
      (.error (.diskError ("Multiple operating systems found")),
       { d with cleanup_jobs :=
           d.cleanup_jobs ++ snapJobs env ++ [.dmRemove env.uuidHex] },
       snapTrace env sd ++ [.guestLaunch (dmPath env)]) := by
  simp [Disk.snapshot_part, Disk.losetup, Disk.add_cleanup, hdm,
        DiskDevice.init, dmPath] at *
  simp [hr, snapJobs, snapTrace, tableLine, dmPath, List.append_assoc]

lemma snapshot_part_ok_single (env : Env) (d : Disk) (sd : String)
    (r : String) (hdm : env.dmCreateOk = true)
    (hr : env.roots (dmPath env) = [r]) :
    Disk.snapshot_part env d sd =
      (.ok (.inr (snapDev env r)),
       { d with
           cleanup_jobs :=
             d.cleanup_jobs ++ snapJobs env ++ [.dmRemove env.uuidHex],
           devices := d.devices ++ [snapDev env r] },
       snapTrace env sd ++ [.guestLaunch (dmPath env)]) := by
  simp [Disk.snapshot_part, Disk.losetup, Disk.add_cleanup, hdm,
        DiskDevice.init, dmPath] at *
  simp [hr, snapJobs, snapTrace, tableLine, dmPath, snapDev,
        List.append_assoc]

lemma get_device_reg (env : Env) (d : Disk) (hm : env.mode = .reg) :
    Disk.get_device env d =
      ((Disk.snapshot_part env
          (d.add_cleanup (.losetupD (env.loopOf d.source)))
          (env.loopOf d.source)).1,
       (Disk.snapshot_part env
          (d.add_cleanup (.losetupD (env.loopOf d.source)))
          (env.loopOf d.source)).2.1,
       .statPath d.source :: .losetupAttach d.source (env.loopOf d.source) ::
         (Disk.snapshot_part env
            (d.add_cleanup (.losetupD (env.loopOf d.source)))
            (env.loopOf d.source)).2.2) := by
  simp [Disk.get_device, Disk.get_device_with, Disk.losetup, hm]

lemma get_device_blk (env : Env) (d : Disk) (hm : env.mode = .blk) :
    Disk.get_device env d =
      ((Disk.snapshot_part env d d.source).1,
       (Disk.snapshot_part env d d.source).2.1,
       .statPath d.source :: (Disk.snapshot_part env d d.source).2.2) := by
  simp [Disk.get_device, Disk.get_device_with, hm]

/-- The `(name, tableContent)` pair of a `dmsetup create` invocation. -/
def Action.dmCreateArgs : Action → Option (String × String)
  | .dmsetupCreate n _ c => some (n, c)
  | _ => none

/-- The `(of-target, seek-in-KiB)` pair of a sparse `dd` invocation. -/
def Action.ddArgs : Action → Option (String × Nat)
  | .ddSparse p k => some (p, k)
  | _ => none

lemma snapTrace_writeTargets (env : Env) (sd : String) :
    (snapTrace env sd).filterMap Action.writeTarget =
      [env.cowName, env.tableName] := rfl

lemma snapTrace_created (env : Env) (sd : String) :
    (snapTrace env sd).filterMap Action.created =
      [env.cowName, env.tableName, dmPath env] := rfl

lemma snapTrace_dmCreateArgs (env : Env) (sd : String) :
    (snapTrace env sd).filterMap Action.dmCreateArgs =
      [(env.uuidHex, tableLine env sd)] := rfl

lemma snapTrace_ddArgs (env : Env) (sd : String) :
    (snapTrace env sd).filterMap Action.ddArgs =
      [(env.cowName, 1024 * 1024)] := rfl

/-- Inside the snapshot tail, the only action that can mention a path `p`
other than the cow file, the table file and their loop device is the
`blockdev --getsize` query on the resolved origin. -/
lemma snapTrace_refs (env : Env) (p sd : String)
    (hcow : env.cowName ≠ p) (htbl : env.tableName ≠ p)
    (hloop : ∀ f, env.loopOf f ≠ p) :
    ∀ a ∈ snapTrace env sd, p ∈ a.refs → a = Action.blockdevGetsize p := by
  intro a ha hp
  simp only [snapTrace, List.mem_cons, List.not_mem_nil, or_false] at ha
  rcases ha with rfl | rfl | rfl | rfl | rfl | rfl | rfl | rfl <;>
    simp only [Action.refs, List.mem_cons, List.not_mem_nil, or_false,
               List.mem_singleton] at hp
  · rw [hp]
  · exact absurd hp.symm hcow
  · exact absurd hp.symm hcow
  · rcases hp with hp | hp
    · exact absurd hp.symm hcow
    · exact absurd hp.symm (hloop env.cowName)
  · exact absurd hp.symm htbl
  · exact absurd hp.symm htbl
  · exact absurd hp.symm htbl
  · exact absurd hp.symm htbl

/-- C8: a source that exists but is neither a directory, nor a regular
file, nor a block device makes `get_device` raise
`ValueError("Value for self.source is invalid")` after the `os.stat` call,
with the ledger and the device list untouched. -/
theorem c8_invalid_source_rejected (env : Env) (d : Disk)
    (hm : env.mode = .other) :
    Disk.get_device env d =
      (.error (.valueError ("Value for self.source is invalid")), d,
       [.statPath d.source]) := by
  simp [Disk.get_device, Disk.get_device_with, hm]

/-- An environment whose source stats as a FIFO (neither directory, regular
file, nor block device). -/
def envOther : Env :=
  { mode := .other, loopOf := fun _ => "/dev/loop7",
    getsize := fun _ => 2000000, cowName := "/tmp/cow",
    tableName := "/tmp/table", uuidHex := "0123456789abcdef0123456789abcdef",
    dmCreateOk := true, roots := fun _ => ["/dev/sda1"],
    inspectType := fun _ => "linux", inspectDistro := fun _ => "fedora" }

def fifoDisk : Disk := { source := "/run/some.fifo" }

/-- Witness for C8 on a FIFO source. -/
theorem c8_invalid_source_rejected_witness :
    envOther.mode = .other ∧
    Disk.get_device envOther fifoDisk =
      (.error (.valueError ("Value for self.source is invalid")), fifoDisk,
       [.statPath ("/run/some.fifo")]) :=
  ⟨rfl, c8_invalid_source_rejected envOther fifoDisk rfl⟩

/-- An environment whose source stats as a directory. -/
def envDir : Env :=
  { envOther with mode := .dir }

def dirDisk : Disk := { source := "/" }

/-- C9 counterexample: on a directory source, `get_device` does not
materialize the tree and return a loop-attached image — `_dir_to_disk`
raises `NotImplementedError`, so the call fails right after `os.stat`,
with no loop attach in the trace and the Disk state unchanged. -/
theorem c9_counterexample :
    Disk.get_device envDir dirDisk =
      (.error .notImplementedError, dirDisk, [.statPath ("/")]) := rfl

/-- C9 amended: for a directory source, `get_device` calls `_dir_to_disk`,
which in this version of the code is an unimplemented stub, so the call
raises `NotImplementedError` having acquired nothing; had the bundler
produced an image file `f`, `get_device` would loop-attach `f`, register
the loop detach in the ledger, and return the loop device directly,
skipping snapshot construction (no cow file, no `dmsetup`). -/
theorem c9_directory_source (env : Env) (d : Disk) (f : String)
    (hm : env.mode = .dir) :
    Disk.get_device env d =
      (.error .notImplementedError, d, [.statPath d.source]) ∧
    Disk.get_device_with env (.ok f) d =
      (.ok (.inl (env.loopOf f)),
       { d with cleanup_jobs := d.cleanup_jobs ++ [.losetupD (env.loopOf f)] },
       [.statPath d.source, .losetupAttach f (env.loopOf f)]) := by
  constructor
  · simp [Disk.get_device, Disk.get_device_with, Disk.dir_to_disk, hm]
  · simp [Disk.get_device_with, Disk.losetup, Disk.add_cleanup, hm]

/-- Witness for the amended C9. -/
theorem c9_directory_source_witness :
    envDir.mode = SrcMode.dir ∧
    (Disk.get_device envDir dirDisk =
       (.error .notImplementedError, dirDisk, [.statPath ("/")]) ∧
     Disk.get_device_with envDir (.ok ("/var/tmp/root.img")) dirDisk =
       (.ok (.inl ("/dev/loop7")),
        { dirDisk with cleanup_jobs := [.losetupD ("/dev/loop7")] },
        [.statPath ("/"), .losetupAttach ("/var/tmp/root.img") ("/dev/loop7")])) :=
  ⟨rfl, by
    have h := c9_directory_source envDir dirDisk ("/var/tmp/root.img") rfl
    exact ⟨h.1.trans (by rfl), h.2.trans (by rfl)⟩⟩

/-- C3: in `get_device` on a regular-file source, each loop attach and the
cow temp file register their release entries in the ledger as they are
acquired; in particular, when `dmsetup create` fails after both loop
attaches succeeded, the error propagates while the two loop-detach entries
and the cow unlink entry are already registered (the device list is
untouched), so a later failure-free `cleanup()` executes all of their
release actions; when `dmsetup create` succeeds, its remove entry is also
registered before `get_device` returns. -/
theorem c3_registration_before_return (env : Env) (d : Disk)
    (hm : env.mode = .reg) :
    (env.dmCreateOk = false →
       (Disk.get_device env d).1 = .error (.commandFailed ("dmsetup create")) ∧
       (Disk.get_device env d).2.1 =
         { d with cleanup_jobs := d.cleanup_jobs ++
             (.losetupD (env.loopOf d.source) :: snapJobs env) } ∧
       ∀ j ∈ Job.losetupD (env.loopOf d.source) :: snapJobs env,
         Job.run j ∈ ((Disk.get_device env d).2.1.cleanup df0 jf0).2.2) ∧
    (env.dmCreateOk = true →
       (Disk.get_device env d).2.1.cleanup_jobs =
         d.cleanup_jobs ++ (.losetupD (env.loopOf d.source) :: snapJobs env)
           ++ [.dmRemove env.uuidHex]) := by
  constructor
  · intro hdm
    rw [get_device_reg env d hm, snapshot_part_fail env _ _ hdm]
    refine ⟨rfl, ?_, ?_⟩
    · simp [Disk.add_cleanup, List.append_assoc]
    · intro j hj
      rw [cleanup_no_fail _ df0 jf0 (fun _ _ => rfl) (fun _ _ => rfl)]
      refine List.mem_append_right _ ?_
      refine List.mem_map.mpr ⟨j, ?_, rfl⟩
      rw [List.mem_reverse]
      simp only [Disk.add_cleanup, List.mem_append, List.append_assoc,
                 List.mem_cons]
      simp only [List.mem_cons, List.mem_singleton] at hj
      rcases hj with rfl | hj
      · tauto
      · tauto
  · intro hdm
    rcases hr : env.roots (dmPath env) with _ | ⟨r, rest⟩
    · rw [get_device_reg env d hm, snapshot_part_ok_none env _ _ hdm hr]
      simp [Disk.add_cleanup, List.append_assoc]
    · cases rest with
      | nil =>
        rw [get_device_reg env d hm, snapshot_part_ok_single env _ _ r hdm hr]
        simp [Disk.add_cleanup, List.append_assoc]
      | cons s rest =>
        rw [get_device_reg env d hm,
            snapshot_part_ok_multi env _ _ r s rest hdm hr]
        simp [Disk.add_cleanup, List.append_assoc]

/-- An environment with a regular-file source whose `dmsetup create` step
fails. -/
def envRegFail : Env :=
  { envOther with mode := .reg, dmCreateOk := false }

def regDisk : Disk := { source := "/store/image.diskdump" }

/-- Witness for C3: the failing-`dmsetup` scenario on a concrete disk. -/
theorem c3_registration_before_return_witness :
    envRegFail.dmCreateOk = false ∧
    (Disk.get_device envRegFail regDisk).1 =
      .error (.commandFailed ("dmsetup create")) ∧
    (Disk.get_device envRegFail regDisk).2.1 =
      { regDisk with cleanup_jobs :=
          [.losetupD ("/dev/loop7"), .unlinkJob ("/tmp/cow"),
           .losetupD ("/dev/loop7")] } ∧
    Job.run (Job.unlinkJob ("/tmp/cow")) ∈
      ((Disk.get_device envRegFail regDisk).2.1.cleanup df0 jf0).2.2 := by
  have h := (c3_registration_before_return envRegFail regDisk rfl).1 rfl
  exact ⟨rfl, h.1, h.2.1.trans (by rfl),
         h.2.2 (Job.unlinkJob ("/tmp/cow")) (by decide)⟩

lemma get_device_trace_reg (env : Env) (d : Disk) (hm : env.mode = .reg) :
    (Disk.get_device env d).2.2 =
      .statPath d.source :: .losetupAttach d.source (env.loopOf d.source) ::
        (snapTrace env (env.loopOf d.source) ++
         if env.dmCreateOk then [Action.guestLaunch (dmPath env)] else []) := by
  cases hdc : env.dmCreateOk
  · rw [get_device_reg env d hm, snapshot_part_fail env _ _ hdc]
    simp
  · rcases hr : env.roots (dmPath env) with _ | ⟨r, rest⟩
    · rw [get_device_reg env d hm, snapshot_part_ok_none env _ _ hdc hr]
      simp
    · cases rest with
      | nil =>
        rw [get_device_reg env d hm,
            snapshot_part_ok_single env _ _ r hdc hr]
        simp
      | cons s rest =>
        rw [get_device_reg env d hm,
            snapshot_part_ok_multi env _ _ r s rest hdc hr]
        simp

lemma get_device_trace_blk (env : Env) (d : Disk) (hm : env.mode = .blk) :
    (Disk.get_device env d).2.2 =
      .statPath d.source ::
        (snapTrace env d.source ++
         if env.dmCreateOk then [Action.guestLaunch (dmPath env)] else []) := by
  cases hdc : env.dmCreateOk
  · rw [get_device_blk env d hm, snapshot_part_fail env _ _ hdc]
    simp
  · rcases hr : env.roots (dmPath env) with _ | ⟨r, rest⟩
    · rw [get_device_blk env d hm, snapshot_part_ok_none env _ _ hdc hr]
      simp
    · cases rest with
      | nil =>
        rw [get_device_blk env d hm,
            snapshot_part_ok_single env _ _ r hdc hr]
        simp
      | cons s rest =>
        rw [get_device_blk env d hm,
            snapshot_part_ok_multi env _ _ r s rest hdc hr]
        simp

/-- C10: with the snapshot device created, `get_device` succeeds only when
guest inspection finds exactly one root: zero roots raise
`DiskError("No operating system found")`, several roots raise
`DiskError("Multiple operating systems found")`, in both failure cases the
tracked-device list is unchanged (a later `cleanup()` will not destroy the
half-built device) while the loop/cow/device-mapper ledger entries of the
call remain registered; a single root yields the device on
`/dev/mapper/<uuid>` appended to the device list. -/
theorem c10_single_os_requirement (env : Env) (d : Disk)
    (hm : env.mode = .reg ∨ env.mode = .blk) (hdm : env.dmCreateOk = true) :
    (env.roots (dmPath env) = [] →
       (Disk.get_device env d).1 =
         .error (.diskError ("No operating system found")) ∧
       (Disk.get_device env d).2.1.devices = d.devices ∧
       Job.dmRemove env.uuidHex ∈ (Disk.get_device env d).2.1.cleanup_jobs ∧
       Job.losetupD (env.loopOf env.cowName) ∈
         (Disk.get_device env d).2.1.cleanup_jobs ∧
       Job.unlinkJob env.cowName ∈ (Disk.get_device env d).2.1.cleanup_jobs) ∧
    (∀ r s rest, env.roots (dmPath env) = r :: s :: rest →
       (Disk.get_device env d).1 =
         .error (.diskError ("Multiple operating systems found")) ∧
       (Disk.get_device env d).2.1.devices = d.devices ∧
       Job.dmRemove env.uuidHex ∈ (Disk.get_device env d).2.1.cleanup_jobs) ∧
    (∀ r, env.roots (dmPath env) = [r] →
       (Disk.get_device env d).1 = .ok (.inr (snapDev env r)) ∧
       (Disk.get_device env d).2.1.devices = d.devices ++ [snapDev env r]) := by
  rcases hm with hm | hm
  · refine ⟨?_, ?_, ?_⟩
    · intro hr
      rw [get_device_reg env d hm, snapshot_part_ok_none env _ _ hdm hr]
      exact ⟨rfl, by simp [Disk.add_cleanup], by simp [Disk.add_cleanup],
             by simp [Disk.add_cleanup, snapJobs],
             by simp [Disk.add_cleanup, snapJobs]⟩
    · intro r s rest hr
      rw [get_device_reg env d hm, snapshot_part_ok_multi env _ _ r s rest hdm hr]
      exact ⟨rfl, by simp [Disk.add_cleanup], by simp [Disk.add_cleanup]⟩
    · intro r hr
      rw [get_device_reg env d hm, snapshot_part_ok_single env _ _ r hdm hr]
      exact ⟨rfl, by simp [Disk.add_cleanup]⟩
  · refine ⟨?_, ?_, ?_⟩
    · intro hr
      rw [get_device_blk env d hm, snapshot_part_ok_none env _ _ hdm hr]
      exact ⟨rfl, rfl, by simp, by simp [snapJobs], by simp [snapJobs]⟩
    · intro r s rest hr
      rw [get_device_blk env d hm, snapshot_part_ok_multi env _ _ r s rest hdm hr]
      exact ⟨rfl, rfl, by simp⟩
    · intro r hr
      rw [get_device_blk env d hm, snapshot_part_ok_single env _ _ r hdm hr]
      exact ⟨rfl, rfl⟩

/-- An environment with a regular-file source on which guest inspection
finds no operating system. -/
def envRegNoOS : Env :=
  { envOther with mode := .reg, roots := fun _ => [] }

/-- Witness for C10: zero roots on a concrete regular-file source. -/
theorem c10_single_os_requirement_witness :
    envRegNoOS.dmCreateOk = true ∧
    (Disk.get_device envRegNoOS regDisk).1 =
      .error (.diskError ("No operating system found")) ∧
    (Disk.get_device envRegNoOS regDisk).2.1.devices = [] ∧
    Job.dmRemove envRegNoOS.uuidHex ∈
      (Disk.get_device envRegNoOS regDisk).2.1.cleanup_jobs := by
  have h :=
    (c10_single_os_requirement envRegNoOS regDisk (Or.inl rfl) rfl).1 rfl
  exact ⟨rfl, h.1, h.2.1.trans rfl, h.2.2.1⟩

/-- C6: for a regular-file or block-device source, exactly one
`dmsetup create` runs, its name is the generated uuid hex, its table
content is exactly `0 <getsize sourcedev> snapshot <sourcedev> <cowdev> n 8`
with `<sourcedev>` the resolved origin (the source itself for a block
device, its loop device for a regular file) and `<cowdev>` the cow loop
device, the size comes from the `blockdev --getsize` query on that same
resolved origin, and on success the returned device lives at
`/dev/mapper/<uuid>`. -/
theorem c6_dm_table (env : Env) (d : Disk) (sd : String)
    (hm : (env.mode = .reg ∧ sd = env.loopOf d.source) ∨
          (env.mode = .blk ∧ sd = d.source)) :
    (Disk.get_device env d).2.2.filterMap Action.dmCreateArgs =
      [(env.uuidHex, tableLine env sd)] ∧
    tableLine env sd =
      "0 " ++ toString (env.getsize sd) ++ " snapshot " ++ sd ++ " "
        ++ env.loopOf env.cowName ++ " n 8" ∧
    Action.blockdevGetsize sd ∈ (Disk.get_device env d).2.2 ∧
    (∀ r, env.dmCreateOk = true → env.roots (dmPath env) = [r] →
       (Disk.get_device env d).1 = .ok (.inr (snapDev env r)) ∧
       (snapDev env r).device = "/dev/mapper/" ++ env.uuidHex) := by
  rcases hm with ⟨hm, rfl⟩ | ⟨hm, rfl⟩
  · refine ⟨?_, rfl, ?_, ?_⟩
    · rw [get_device_trace_reg env d hm]
      cases hdc : env.dmCreateOk <;>
        simp [List.filterMap_append, Action.dmCreateArgs,
              snapTrace_dmCreateArgs]
    · rw [get_device_trace_reg env d hm]
      simp [snapTrace]
    · intro r hdc hr
      rw [get_device_reg env d hm, snapshot_part_ok_single env _ _ r hdc hr]
      exact ⟨rfl, rfl⟩
  · refine ⟨?_, rfl, ?_, ?_⟩
    · rw [get_device_trace_blk env d hm]
      cases hdc : env.dmCreateOk <;>
        simp [List.filterMap_append, Action.dmCreateArgs,
              snapTrace_dmCreateArgs]
    · rw [get_device_trace_blk env d hm]
      simp [snapTrace]
    · intro r hdc hr
      rw [get_device_blk env d hm, snapshot_part_ok_single env _ _ r hdc hr]
      exact ⟨rfl, rfl⟩

/-- An environment with a regular-file source, working `dmsetup`, and a
single-root guest. -/
def envReg1 : Env :=
  { envOther with mode := .reg }

/-- Witness for C6: on the concrete regular-file environment the table
line evaluates to the documented format with size 2000000 sectors. -/
theorem c6_dm_table_witness :
    envReg1.mode = SrcMode.reg ∧
    (Disk.get_device envReg1 regDisk).2.2.filterMap Action.dmCreateArgs =
      [("0123456789abcdef0123456789abcdef",
        "0 2000000 snapshot /dev/loop7 /dev/loop7 n 8")] := by
  have h := c6_dm_table envReg1 regDisk ("/dev/loop7") (Or.inl ⟨rfl, rfl⟩)
  exact ⟨rfl, h.1.trans (by rfl)⟩

/-- An environment with a block-device source of 2000000 sectors. -/
def envBlk : Env :=
  { envOther with mode := .blk }

def blkDisk : Disk := { source := "/dev/sdb" }

/-- C7 counterexample: the sparse cow file is created by
`dd if=/dev/null of=<cow> bs=1k seek=1048576`, i.e. with a fixed logical
size of 1048576 KiB = 1 GiB, while the origin block device reports
2000000 sectors = 1024000000 bytes; the two extents differ, refuting the
claim that the cow file has the origin's logical extent. -/
theorem c7_counterexample :
    (Disk.get_device envBlk blkDisk).2.2.filterMap Action.ddArgs =
      [("/tmp/cow", 1024 * 1024)] ∧
    envBlk.getsize ("/dev/sdb") = 2000000 ∧
    (1024 * 1024) * 1024 ≠ 2000000 * 512 ∧
    (1024 * 1024) * 2 ≠ 2000000 := by
  exact ⟨rfl, rfl, by decide, by decide⟩

/-- C7 amended: for a regular-file or block-device source the cow backing
file is always created sparse with the fixed logical size 1048576 KiB
(1 GiB) — `dd if=/dev/null of=<cow> bs=1k seek=1024*1024` — independent of
the sector count the block-size query reports for the origin. -/
theorem c7_cow_fixed_one_gib (env : Env) (d : Disk) (sd : String)
    (hm : (env.mode = .reg ∧ sd = env.loopOf d.source) ∨
          (env.mode = .blk ∧ sd = d.source)) :
    (Disk.get_device env d).2.2.filterMap Action.ddArgs =
      [(env.cowName, 1024 * 1024)] := by
  rcases hm with ⟨hm, rfl⟩ | ⟨hm, rfl⟩
  · rw [get_device_trace_reg env d hm]
    cases hdc : env.dmCreateOk <;>
      simp [List.filterMap_append, Action.ddArgs, snapTrace_ddArgs]
  · rw [get_device_trace_blk env d hm]
    cases hdc : env.dmCreateOk <;>
      simp [List.filterMap_append, Action.ddArgs, snapTrace_ddArgs]

/-- Witness for the amended C7. -/
theorem c7_cow_fixed_one_gib_witness :
    envBlk.mode = SrcMode.blk ∧
    (Disk.get_device envBlk blkDisk).2.2.filterMap Action.ddArgs =
      [("/tmp/cow", 1048576)] := by
  have h := c7_cow_fixed_one_gib envBlk blkDisk ("/dev/sdb")
      (Or.inr ⟨rfl, rfl⟩)
  exact ⟨rfl, h.trans (by rfl)⟩

/-- C1: for a supported source (regular file or block device), no external
command issued during `get_device` writes to the source: every write target
in the trace (the `dd` cow target, the table-file write, and the guestfs
appliance opened read-write on the mapped device) differs from the source
and is a path the `Disk` itself created in that same call; the source
appears in the trace only as the `os.stat` argument, the `losetup` attach
argument, or the `blockdev --getsize` argument; and every table content
handed to `dmsetup create` is exactly the snapshot line in which the
resolved origin is a read-only field. -/
theorem c1_non_mutation_of_source (env : Env) (d : Disk) (sd : String)
    (hm : (env.mode = .reg ∧ sd = env.loopOf d.source) ∨
          (env.mode = .blk ∧ sd = d.source))
    (hcow : env.cowName ≠ d.source) (htbl : env.tableName ≠ d.source)
    (hloop : ∀ f, env.loopOf f ≠ d.source) (hdm : dmPath env ≠ d.source) :
    (∀ t ∈ (Disk.get_device env d).2.2.filterMap Action.writeTarget,
       t ≠ d.source ∧
       t ∈ (Disk.get_device env d).2.2.filterMap Action.created) ∧
    (∀ a ∈ (Disk.get_device env d).2.2, d.source ∈ a.refs →
       a = .statPath d.source ∨
       a = .losetupAttach d.source (env.loopOf d.source) ∨
       a = .blockdevGetsize d.source) ∧
    (∀ n p c, Action.dmsetupCreate n p c ∈ (Disk.get_device env d).2.2 →
       c = tableLine env sd) := by
  rcases hm with ⟨hm, rfl⟩ | ⟨hm, rfl⟩
  · rw [get_device_trace_reg env d hm]
    cases hdc : env.dmCreateOk
    · refine ⟨?_, ?_, ?_⟩
      · intro t ht
        simp [Action.writeTarget, snapTrace, Action.created] at ht ⊢
        rcases ht with rfl | rfl
        · exact ⟨hcow, Or.inl rfl⟩
        · exact ⟨htbl, Or.inr (Or.inl rfl)⟩
      · intro a ha hsrc
        simp only [List.mem_cons, List.append_nil, Bool.false_eq_true,
                   if_false] at ha
        rcases ha with rfl | rfl | ha
        · exact Or.inl rfl
        · exact Or.inr (Or.inl rfl)
        · exact Or.inr (Or.inr
            (snapTrace_refs env d.source _ hcow htbl hloop a ha hsrc))
      · intro n p c hc
        simp [snapTrace] at hc
        exact hc.2.2
    · refine ⟨?_, ?_, ?_⟩
      · intro t ht
        simp [Action.writeTarget, snapTrace, Action.created] at ht ⊢
        rcases ht with rfl | rfl | rfl
        · exact ⟨hcow, Or.inl rfl⟩
        · exact ⟨htbl, Or.inr (Or.inl rfl)⟩
        · exact ⟨hdm, Or.inr (Or.inr rfl)⟩
      · intro a ha hsrc
        simp only [List.mem_cons, List.mem_append, eq_self_iff_true,
                   if_true, List.mem_singleton, List.not_mem_nil,
                   or_false] at ha
        rcases ha with rfl | rfl | ha | rfl
        · exact Or.inl rfl
        · exact Or.inr (Or.inl rfl)
        · exact Or.inr (Or.inr
            (snapTrace_refs env d.source _ hcow htbl hloop a ha hsrc))
        · simp [Action.refs] at hsrc
          exact absurd hsrc.symm hdm
      · intro n p c hc
        simp [snapTrace] at hc
        exact hc.2.2
  · rw [get_device_trace_blk env d hm]
    cases hdc : env.dmCreateOk
    · refine ⟨?_, ?_, ?_⟩
      · intro t ht
        simp [Action.writeTarget, snapTrace, Action.created] at ht ⊢
        rcases ht with rfl | rfl
        · exact ⟨hcow, Or.inl rfl⟩
        · exact ⟨htbl, Or.inr (Or.inl rfl)⟩
      · intro a ha hsrc
        simp only [List.mem_cons, List.append_nil, Bool.false_eq_true,
                   if_false] at ha
        rcases ha with rfl | ha
        · exact Or.inl rfl
        · exact Or.inr (Or.inr
            (snapTrace_refs env d.source _ hcow htbl hloop a ha hsrc))
      · intro n p c hc
        simp [snapTrace] at hc
        exact hc.2.2
    · refine ⟨?_, ?_, ?_⟩
      · intro t ht
        simp [Action.writeTarget, snapTrace, Action.created] at ht ⊢
        rcases ht with rfl | rfl | rfl
        · exact ⟨hcow, Or.inl rfl⟩
        · exact ⟨htbl, Or.inr (Or.inl rfl)⟩
        · exact ⟨hdm, Or.inr (Or.inr rfl)⟩
      · intro a ha hsrc
        simp only [List.mem_cons, List.mem_append, eq_self_iff_true,
                   if_true, List.mem_singleton, List.not_mem_nil,
                   or_false] at ha
        rcases ha with rfl | ha | rfl
        · exact Or.inl rfl
        · exact Or.inr (Or.inr
            (snapTrace_refs env d.source _ hcow htbl hloop a ha hsrc))
        · simp [Action.refs] at hsrc
          exact absurd hsrc.symm hdm
      · intro n p c hc
        simp [snapTrace] at hc
        exact hc.2.2

/-- Witness for C1 on the concrete regular-file environment: the cow and
table files are write targets distinct from the source and are
Disk-created. -/
theorem c1_non_mutation_of_source_witness :
    envReg1.cowName ≠ regDisk.source ∧
    ("/tmp/cow" ≠ regDisk.source ∧
     "/tmp/cow" ∈ (Disk.get_device envReg1 regDisk).2.2.filterMap
                    Action.created) := by
  have h := c1_non_mutation_of_source envReg1 regDisk ("/dev/loop7")
      (Or.inl ⟨rfl, rfl⟩) (by decide) (by decide)
      (by intro f
          show ("/dev/loop7" : String) ≠ "/store/image.diskdump"
          decide)
      (by decide)
  exact ⟨by decide, h.1 ("/tmp/cow") (by decide)⟩

end ImageCreator
